import Mathlib

/-!
Shallow embedding of `crates/language_model/src/provider/copilot_chat.rs`
(GitHub Copilot Chat language-model provider).

Conventions of the embedding:
- Rust `Option<T>` becomes `Option T`; fallible operations become `Except`.
- `chrono::NaiveDateTime` timestamps become `Int` (seconds); the chrono
  comparison `expires_at - now < TimeDelta::minutes(5)` becomes
  `expires_at - now < minutes 5` with `minutes m = m * 60`.
- The two network endpoints (`request_api_token` and the streaming
  `stream_completion` call of the copilot crate) are oracles passed as
  function arguments; the number of calls made to each is reported in a
  `NetTrace` so that claims about "zero network calls" are statable.
- A Rust panic (an `unwrap()` on `None`) is modelled by an explicit
  `panicked` outcome constructor: it is neither a returned error nor an
  emitted element.
- The gpui app context and its subscriptions are not modelled; the
  `cx.update_model` / `cx.read_model` plumbing always succeeds (the
  "App state dropped" branch of the source is out of scope here).
- Error values that the source creates as `anyhow` message strings are
  represented by the error-taxonomy constructors the specification gives
  them (`ValidationError`, `AuthError`, `StreamError`); each constructor
  corresponds to exactly one early-return site of the source.
-/

namespace CopilotChat

/-- Role of a provider-neutral chat message (`language_model::Role`). -/
inductive Role
  | user
  | assistant
  | system
deriving DecidableEq

/-- Role in the Copilot Chat wire format (`copilot_chat::Role`). -/
inductive CopilotChatRole
  | user
  | assistant
  | system
deriving DecidableEq

/-- One provider-neutral request message (`LanguageModelRequestMessage`). -/
structure LanguageModelRequestMessage where
  role : Role
  content : String
deriving DecidableEq

/-- The provider-neutral request. Only the `messages` field is consumed by
this provider (validation and translation); other fields of the Rust
struct do not influence any behaviour modelled here. -/
structure LanguageModelRequest where
  messages : List LanguageModelRequestMessage
deriving DecidableEq

/-- The model enumeration of the copilot crate (`Model`), as matched in
`count_tokens` of the source. -/
inductive CopilotChatModel
  | gpt4
  | gpt3_5Turbo
deriving DecidableEq

/-- One wire-format chat message (`copilot_chat::ChatMessage`). -/
structure ChatMessage where
  role : CopilotChatRole
  content : String
deriving DecidableEq

/-- The wire-format request (`copilot_chat::Request`); only the fields
set from the inputs of `Request::new(model, messages)` are modelled. -/
structure CopilotChatRequest where
  model : CopilotChatModel
  messages : List ChatMessage
deriving DecidableEq

/-- The provider state (`State` in the source): the long-lived OAuth token
and the cached ephemeral API key with its expiry timestamp
(`api_key: Option<(String, NaiveDateTime)>`). The settings and the two
gpui subscriptions of the Rust struct carry no credential data. -/
structure State where
  oauth_token : Option String
  api_key : Option (String × Int)
deriving DecidableEq

/-- Validation errors of the specification taxonomy. `EmptyPrompt`
corresponds to the `EMPTY_PROMPT_MSG` early return of the source and
`LastMessageMustBeUser` to the `USER_ROLE_MSG` early return. -/
inductive ValidationError
  | EmptyPrompt
  | LastMessageMustBeUser
deriving DecidableEq

/-- Authentication errors of the specification taxonomy. `RefreshFailed`
carries the detail of the failed token-endpoint call that the source
propagates with the question-mark operator. -/
inductive AuthError
  | NotAuthenticated
  | RefreshFailed (detail : String)
deriving DecidableEq

/-- Stream errors of the specification taxonomy. `ProtocolViolation` is
the "no choices" error element of the source; `Transport` is an error
forwarded verbatim from the underlying response stream. -/
inductive StreamError
  | ProtocolViolation
  | Transport (detail : String)
deriving DecidableEq

/-- One element of the adapted output stream. `delta` is an emitted text
delta, `error` an error element, and `panicked` records that producing
the element ran `unwrap()` on `None` (a Rust panic, which crashes the
task instead of yielding anything). -/
inductive StreamItem
  | delta (content : String)
  | error (e : StreamError)
  | panicked
deriving DecidableEq

/-- Wire response delta (`ResponseDelta` of the copilot crate): the
optional text fragment of one choice. -/
structure ResponseDelta where
  content : Option String
deriving DecidableEq

/-- Wire response choice (`ResponseChoice` of the copilot crate). -/
structure ResponseChoice where
  delta : ResponseDelta
deriving DecidableEq

/-- Wire response event (`ResponseEvent` of the copilot crate): one parsed
frame of the streaming completion response. -/
structure ResponseEvent where
  choices : List ResponseChoice
deriving DecidableEq

/-- Overall outcome of one `stream_completion` invocation. -/
inductive CompletionOutcome
  | validationError (e : ValidationError)
  | panicked
  | authFailed (e : AuthError)
  | transportFailed (detail : String)
  | stream (items : List StreamItem)
deriving DecidableEq

/-- Count of network calls issued during one `stream_completion`
invocation: calls to the token endpoint and calls to the completion
endpoint. -/
structure NetTrace where
  refreshCalls : Nat
  completionCalls : Nat
deriving DecidableEq

/-- Minutes to timestamp units (seconds), mirroring
`chrono::TimeDelta::minutes`. -/
def minutes (m : Int) : Int := m * 60

/-- Source lines 118-120: `is_authenticated` is true exactly when the
state holds an OAuth token. -/
def is_authenticated (s : State) : Bool := s.oauth_token.isSome

/-- The coarse Copilot status reported by the external authentication
subsystem (`copilot::Status`), as matched in `authenticate`. -/
inductive Status
  | disabled
  | error (e : String)
  | starting
  | unauthorized
  | authorized
  | signedOut
  | signingIn
deriving DecidableEq

/-- Outcome of `authenticate`: the ready task resolves to ok or to an
error message; `panicked` records the `unwrap()` on an absent Copilot
global. -/
inductive AuthOutcome
  | ok
  | err (msg : String)
  | panicked
deriving DecidableEq

/-- Source lines 122-143: `authenticate` returns ok at once when a token
is present; otherwise it unwraps the Copilot global (panicking when it is
absent) and maps its reported status to a ready result. -/
def authenticate (s : State) (copilot : Option Status) : AuthOutcome :=
  if is_authenticated s then AuthOutcome.ok
  else
    match copilot with
    | none => AuthOutcome.panicked
    | some st =>
      match st with
      | Status.disabled => AuthOutcome.err "Copilot must be enabled for Copilot Chat to work. Please enable Copilot and try again."
      | Status.error e => AuthOutcome.err ("Received the following error while signing into Copilot: " ++ e)
      | Status.starting => AuthOutcome.err "Copilot is still starting, please wait for Copilot to start then try again"
      | Status.unauthorized => AuthOutcome.err "Unable to authorize with Copilot. Please make sure that you have an active Copilot and Copilot Chat subscription."
      | Status.authorized => AuthOutcome.ok
      | Status.signedOut => AuthOutcome.err "You have signed out of Copilot. Please sign in to Copilot and try again."
      | Status.signingIn => AuthOutcome.err "Still signing into Copilot..."

/-- Source lines 149-171: `reset_credentials` fails when the Copilot
global is unavailable; otherwise it delegates sign-out to the external
subsystem (the `signOut` oracle) and, on its success, clears both the
OAuth token and the cached API key. -/
def reset_credentials (copilotAvailable : Bool) (signOut : Except String Unit)
    (state : State) : Except String State :=
  if !copilotAvailable then
    Except.error "Copilot is not available. Please ensure Copilot is enabled and running and try again."
  else
    match signOut with
    | Except.error e => Except.error e
    | Except.ok _ => Except.ok { state with oauth_token := none, api_key := none }

/-- Source lines 62-67: the `_chat_subscription` observer copies the
OAuth token of the global `CopilotChat` into the provider state. It does
not touch `api_key`. -/
def chat_subscription_update (chat_oauth_token : Option String) (s : State) : State :=
  { s with oauth_token := chat_oauth_token }

/-- Source lines 73-89: `get_new_api_token` calls the token endpoint with
the OAuth token; on success it stores the new `(key, expires_at)` pair in
the state and returns the key; on failure it propagates the failure (the
`RefreshFailed` case of the specification taxonomy) and performs no state
update. The returned state is the state after the operation. -/
def get_new_api_token (oauth_token : String)
    (tokenEndpoint : String → Except String (String × Int)) (state : State) :
    Except AuthError String × State :=
  match tokenEndpoint oauth_token with
  | Except.error e => (Except.error (AuthError.RefreshFailed e), state)
  | Except.ok (api_key, expires_at) =>
    (Except.ok api_key, { state with api_key := some (api_key, expires_at) })

/-- The refresh path of the key-ensuring step: one call to
`get_new_api_token`, reported as one refresh call. -/
def refresh_api_key (oauth_token : String)
    (tokenEndpoint : String → Except String (String × Int)) (state : State) :
    Except AuthError String × State × Nat :=
  ((get_new_api_token oauth_token tokenEndpoint state).1,
   (get_new_api_token oauth_token tokenEndpoint state).2, 1)

/-- Source lines 261-270: the key-ensuring step of `stream_completion`.
With a cached key it refreshes exactly when
`expires_at - now < minutes 5`, and returns the cached key unchanged
otherwise; with no cached key it always refreshes. The `Nat` component
counts the refresh calls performed. -/
def ensure_api_key (api_key : Option (String × Int)) (now : Int)
    (oauth_token : String)
    (tokenEndpoint : String → Except String (String × Int)) (state : State) :
    Except AuthError String × State × Nat :=
  match api_key with
  | some (key, expires_at) =>
    if expires_at - now < minutes 5 then
      refresh_api_key oauth_token tokenEndpoint state
    else (Except.ok key, state, 0)
  | none => refresh_api_key oauth_token tokenEndpoint state

/-- The emptiness test of the source, `content.trim().is_empty()`:
true exactly when every character of the string is whitespace. The check
is embedded in this character-level form because trimming itself is
observable in the source only through this combined test. -/
def trimmed_is_empty (s : String) : Bool :=
  s.toList.all Char.isWhitespace

/-- Source lines 227-241: the validation prologue of `stream_completion`.
It inspects only the last message, when one exists: a last message with
whitespace-only content gives `EmptyPrompt`; a last message whose role is
not `User` gives `LastMessageMustBeUser`; an empty message list has no
last message, so no check runs and validation passes. -/
def validate (messages : List LanguageModelRequestMessage) : Option ValidationError :=
  match messages.getLast? with
  | some message =>
    if trimmed_is_empty message.content then some ValidationError.EmptyPrompt
    else if message.role = Role.user then none
    else some ValidationError.LastMessageMustBeUser
  | none => none

/-- Source lines 304-322: `to_copilot_chat_request` builds the wire
request from the model of the language model and the request messages,
mapping each role by the inline match and keeping each content string. -/
def to_copilot_chat_request (model : CopilotChatModel)
    (request : LanguageModelRequest) : CopilotChatRequest :=
  CopilotChatRequest.mk model
    (request.messages.map fun msg =>
      ChatMessage.mk
        (match msg.role with
         | Role.user => CopilotChatRole.user
         | Role.assistant => CopilotChatRole.assistant
         | Role.system => CopilotChatRole.system)
        msg.content)

/-- The role mapping of `to_copilot_chat_request`, named so that its
bijectivity can be stated. -/
def role_to_copilot_role : Role → CopilotChatRole
  | Role.user => CopilotChatRole.user
  | Role.assistant => CopilotChatRole.assistant
  | Role.system => CopilotChatRole.system

/-- Source lines 278-293: the per-element adapter of the response stream
(the body of the `filter_map`). An ok event with a first choice emits
that choice's delta content, running `unwrap()` on it (`panicked` when
the content is absent); an ok event with no choices yields the
"no choices" error element; a transport error is forwarded as an error
element. -/
def adapt_response (response : Except String ResponseEvent) : StreamItem :=
  match response with
  | Except.ok result =>
    match result.choices.head? with
    | some choice =>
      match choice.delta.content with
      | some content => StreamItem.delta content
      | none => StreamItem.panicked
    | none => StreamItem.error StreamError.ProtocolViolation
  | Except.error err => StreamItem.error (StreamError.Transport err)

/-- The adapted output stream: the `filter_map` of the source maps every
received element through `adapt_response` (every branch of the closure
returns `Some`, so no element is dropped and none ends the stream). -/
def adapt_stream (responses : List (Except String ResponseEvent)) : List StreamItem :=
  responses.map adapt_response

/-- A received wire frame as the specification describes it: a choice
set plus the finished flag marking end-of-stream. -/
structure StreamFrame where
  choices : List ResponseChoice
  finished : Bool
deriving DecidableEq

/-- Modelled from the spec: the wire delivery layer (the copilot crate
function `stream_completion`, whose body is not under `src/`) yields one
response event per received frame until a frame whose finished flag is
set; that frame denotes normal end-of-stream and is not delivered as an
element of the sequence. -/
def deliver_frames : List StreamFrame → List (Except String ResponseEvent)
  | [] => []
  | f :: fs =>
    if f.finished then []
    else Except.ok (ResponseEvent.mk f.choices) :: deliver_frames fs

/-- Source lines 219-297: the `stream_completion` pipeline. Validation
runs first and short-circuits with zero network calls; then the state is
read and the OAuth token is unwrapped (`panicked` when it is absent,
still with zero network calls); then the key-ensuring step runs, whose
failure short-circuits the completion call; finally the completion
endpoint is called once with the translated request and its response
stream is adapted element-wise. The source translates the request before
reading the state; translation is pure, so it is inlined here at its use
site. -/
def stream_completion (model : CopilotChatModel) (request : LanguageModelRequest)
    (state : State) (now : Int)
    (tokenEndpoint : String → Except String (String × Int))
    (completionEndpoint :
      String → CopilotChatRequest → Except String (List (Except String ResponseEvent))) :
    CompletionOutcome × State × NetTrace :=
  match validate request.messages with
  | some ve => (CompletionOutcome.validationError ve, state, NetTrace.mk 0 0)
  | none =>
    match state.oauth_token with
    | none => (CompletionOutcome.panicked, state, NetTrace.mk 0 0)
    | some oauth_token =>
      match ensure_api_key state.api_key now oauth_token tokenEndpoint state with
      | (Except.error e, s1, r) => (CompletionOutcome.authFailed e, s1, NetTrace.mk r 0)
      | (Except.ok api_key, s1, r) =>
        match completionEndpoint api_key (to_copilot_chat_request model request) with
        | Except.error e => (CompletionOutcome.transportFailed e, s1, NetTrace.mk r 1)
        | Except.ok events =>
          (CompletionOutcome.stream (adapt_stream events), s1, NetTrace.mk r 1)

/-- The credential-state invariant of the specification data model: when
the long-lived token is absent, the ephemeral key is absent too. -/
def credential_invariant (s : State) : Bool :=
  s.oauth_token.isSome || s.api_key.isNone

/-- A sample authenticated state with a cached key expiring at 1000. -/
def sampleState : State := State.mk (some "oauth-token") (some ("cached-key", 1000))

/-- A sample token endpoint that always succeeds. -/
def sampleTokenEndpoint : String → Except String (String × Int) :=
  fun _ => Except.ok ("fresh-key", 2000)

/-- A sample token endpoint that always fails. -/
def failingTokenEndpoint : String → Except String (String × Int) :=
  fun _ => Except.error "token endpoint unreachable"

/-- A sample completion endpoint that succeeds with an empty response
stream. -/
def sampleCompletionEndpoint :
    String → CopilotChatRequest → Except String (List (Except String ResponseEvent)) :=
  fun _ _ => Except.ok []

/-- A request whose message list is empty. -/
def emptyRequest : LanguageModelRequest := LanguageModelRequest.mk []

/-- A well-formed one-message request. -/
def helloRequest : LanguageModelRequest :=
  LanguageModelRequest.mk [LanguageModelRequestMessage.mk Role.user "hello"]

/-- A request whose earlier messages have arbitrary roles and empty or
whitespace-only contents, while the last message is a non-empty user
message. -/
def mixedRequest : LanguageModelRequest :=
  LanguageModelRequest.mk
    [LanguageModelRequestMessage.mk Role.system "",
     LanguageModelRequestMessage.mk Role.assistant "   ",
     LanguageModelRequestMessage.mk Role.user "hi"]

/-- Claim C1 (amended): for every request with a non-empty message
sequence whose last message has whitespace-only content,
`stream_completion` returns the `EmptyPrompt` validation error, leaves
the state unchanged, and issues zero network calls (no token refresh and
no completion call). -/
theorem stream_completion_empty_prompt (model : CopilotChatModel)
    (request : LanguageModelRequest) (state : State) (now : Int)
    (tokenEndpoint : String → Except String (String × Int))
    (completionEndpoint :
      String → CopilotChatRequest → Except String (List (Except String ResponseEvent)))
    (m : LanguageModelRequestMessage)
    (hlast : request.messages.getLast? = some m)
    (hempty : trimmed_is_empty m.content = true) :
    stream_completion model request state now tokenEndpoint completionEndpoint =
      (CompletionOutcome.validationError ValidationError.EmptyPrompt, state,
        NetTrace.mk 0 0) := by
  have hv : validate request.messages = some ValidationError.EmptyPrompt := by
    unfold validate
    rw [hlast]
    simp [hempty]
  unfold stream_completion
  rw [hv]

/-- Witness for C1: a one-message request whose content is three spaces
is rejected as an empty prompt with zero network calls. -/
theorem stream_completion_empty_prompt_witness :
    stream_completion CopilotChatModel.gpt4
      (LanguageModelRequest.mk [LanguageModelRequestMessage.mk Role.user "   "])
      sampleState 0 sampleTokenEndpoint sampleCompletionEndpoint =
      (CompletionOutcome.validationError ValidationError.EmptyPrompt, sampleState,
        NetTrace.mk 0 0) :=
  stream_completion_empty_prompt CopilotChatModel.gpt4
    (LanguageModelRequest.mk [LanguageModelRequestMessage.mk Role.user "   "])
    sampleState 0 sampleTokenEndpoint sampleCompletionEndpoint
    (LanguageModelRequestMessage.mk Role.user "   ") rfl (by decide)

/-- Counterexample to C1 as stated: a request with an empty message
sequence is not rejected as an empty prompt; validation is skipped and
the pipeline proceeds to the completion endpoint, issuing one network
call. -/
theorem stream_completion_empty_messages_cex :
    stream_completion CopilotChatModel.gpt4 emptyRequest sampleState 0
      sampleTokenEndpoint sampleCompletionEndpoint =
      (CompletionOutcome.stream [], sampleState, NetTrace.mk 0 1) ∧
    CompletionOutcome.stream [] ≠
      CompletionOutcome.validationError ValidationError.EmptyPrompt ∧
    (1 : Nat) ≠ 0 := by
  refine ⟨?_, by decide, by decide⟩
  rfl

/-- Claim C2 (code evaluation at the failing input): after a successful
`reset_credentials` the state holds no token and no key and
`is_authenticated` is false, but a subsequent `stream_completion` call
with a well-formed request panics on the `unwrap()` of the absent OAuth
token (with zero network calls) instead of failing with
`AuthError::NotAuthenticated`. -/
theorem reset_then_stream_panics :
    reset_credentials true (Except.ok ()) sampleState =
      Except.ok (State.mk none none) ∧
    is_authenticated (State.mk none none) = false ∧
    stream_completion CopilotChatModel.gpt4 helloRequest (State.mk none none) 0
      sampleTokenEndpoint sampleCompletionEndpoint =
      (CompletionOutcome.panicked, State.mk none none, NetTrace.mk 0 0) ∧
    CompletionOutcome.panicked ≠
      CompletionOutcome.authFailed AuthError.NotAuthenticated := by
  refine ⟨rfl, rfl, ?_, by decide⟩
  rfl

/-- Claim C3: with a token present and a cached key, the key-ensuring
step of `stream_completion` returns the cached key value unchanged with
zero refresh calls when at least five minutes remain before expiry, and
performs exactly one refresh call when less than five minutes remain. -/
theorem ensure_api_key_threshold (key : String) (expires_at now : Int)
    (oauth : String) (tokenEndpoint : String → Except String (String × Int))
    (s : State) :
    (minutes 5 ≤ expires_at - now →
      ensure_api_key (some (key, expires_at)) now oauth tokenEndpoint s =
        (Except.ok key, s, 0)) ∧
    (expires_at - now < minutes 5 →
      (ensure_api_key (some (key, expires_at)) now oauth tokenEndpoint s).2.2 = 1) := by
  constructor
  · intro h
    simp only [ensure_api_key]
    rw [if_neg (not_lt.mpr h)]
  · intro h
    simp only [ensure_api_key]
    rw [if_pos h]
    rfl

/-- Witness for C3: at `now = 0`, a key expiring at 400 (more than five
minutes away) is returned unchanged with zero refresh calls, and a key
expiring at 100 (less than five minutes away) triggers exactly one
refresh call. -/
theorem ensure_api_key_threshold_witness :
    ensure_api_key (some ("cached-key", 400)) 0 "tok" sampleTokenEndpoint
      sampleState = (Except.ok "cached-key", sampleState, 0) ∧
    (ensure_api_key (some ("cached-key", 100)) 0 "tok" sampleTokenEndpoint
      sampleState).2.2 = 1 :=
  ⟨(ensure_api_key_threshold "cached-key" 400 0 "tok" sampleTokenEndpoint
      sampleState).1 (by decide),
   (ensure_api_key_threshold "cached-key" 100 0 "tok" sampleTokenEndpoint
      sampleState).2 (by decide)⟩

/-- Claim C4: when the token endpoint fails, the refresh operation fails
with `RefreshFailed` carrying the detail, and the state — including the
previously cached ephemeral key — is returned exactly as it was before
the attempt. -/
theorem get_new_api_token_failure (oauth : String)
    (tokenEndpoint : String → Except String (String × Int)) (s : State)
    (e : String) (h : tokenEndpoint oauth = Except.error e) :
    get_new_api_token oauth tokenEndpoint s =
      (Except.error (AuthError.RefreshFailed e), s) := by
  unfold get_new_api_token
  rw [h]

/-- Witness for C4: the always-failing endpoint yields `RefreshFailed`
and leaves the sample state, with its cached key, untouched. -/
theorem get_new_api_token_failure_witness :
    get_new_api_token "tok" failingTokenEndpoint sampleState =
      (Except.error (AuthError.RefreshFailed "token endpoint unreachable"),
        sampleState) :=
  get_new_api_token_failure "tok" failingTokenEndpoint sampleState
    "token endpoint unreachable" rfl

/-- Claim C5: translation maps the model to the wire model field, yields
exactly one wire message per request message in the same order with the
same content string and the role mapped by `role_to_copilot_role`, and
that role mapping is a bijection. -/
theorem to_copilot_chat_request_spec (model : CopilotChatModel)
    (request : LanguageModelRequest) :
    (to_copilot_chat_request model request).model = model ∧
    (to_copilot_chat_request model request).messages =
      request.messages.map
        (fun m => ChatMessage.mk (role_to_copilot_role m.role) m.content) ∧
    Function.Bijective role_to_copilot_role := by
  refine ⟨rfl, ?_, ?_, ?_⟩
  · unfold to_copilot_chat_request
    apply List.map_congr_left
    intro m _
    cases m with
    | mk r c => cases r <;> rfl
  · intro a b hab
    cases a <;> cases b <;> simp [role_to_copilot_role] at hab <;> rfl
  · intro c
    cases c
    · exact ⟨Role.user, rfl⟩
    · exact ⟨Role.assistant, rfl⟩
    · exact ⟨Role.system, rfl⟩

/-- Claim C6 (amended): a delivered frame with an empty choice set and
the finished flag clear makes the adapter emit the `ProtocolViolation`
error element, after which the remaining frames continue to be
processed; a frame with the finished flag set ends the sequence with no
further elements and no error element. -/
theorem adapt_empty_choices (f : StreamFrame) (rest : List StreamFrame)
    (hc : f.choices = []) :
    (f.finished = false →
      adapt_stream (deliver_frames (f :: rest)) =
        StreamItem.error StreamError.ProtocolViolation ::
          adapt_stream (deliver_frames rest)) ∧
    (f.finished = true → adapt_stream (deliver_frames (f :: rest)) = []) := by
  constructor
  · intro hf
    simp only [deliver_frames, hf, if_neg]
    simp [adapt_stream, adapt_response, hc]
  · intro hf
    simp only [deliver_frames, hf, if_pos]
    rfl

/-- Witness for C6: a single unfinished empty-choices frame yields
exactly the protocol-violation error element, and a single finished
empty-choices frame yields the empty output sequence. -/
theorem adapt_empty_choices_witness :
    adapt_stream (deliver_frames [StreamFrame.mk [] false]) =
      [StreamItem.error StreamError.ProtocolViolation] ∧
    adapt_stream (deliver_frames [StreamFrame.mk [] true]) = [] :=
  ⟨(adapt_empty_choices (StreamFrame.mk [] false) [] rfl).1 rfl,
   (adapt_empty_choices (StreamFrame.mk [] true) [] rfl).2 rfl⟩

/-- Counterexample to C6 as stated: after the protocol-violation error
element produced by an unfinished empty-choices frame, the output
sequence does not terminate — a later frame still produces a delta, so
the error is not the last element. -/
theorem adapt_empty_choices_cex :
    adapt_stream (deliver_frames
      [StreamFrame.mk [] false,
       StreamFrame.mk [ResponseChoice.mk (ResponseDelta.mk (some "a"))] false]) =
      [StreamItem.error StreamError.ProtocolViolation, StreamItem.delta "a"] ∧
    (adapt_stream (deliver_frames
      [StreamFrame.mk [] false,
       StreamFrame.mk [ResponseChoice.mk (ResponseDelta.mk (some "a"))] false])).getLast? ≠
      some (StreamItem.error StreamError.ProtocolViolation) := by
  refine ⟨rfl, by decide⟩

/-- Claim C7 (amended): for a delivered event with a non-empty choice
set, the adapter emits the first choice's delta content as a text delta
when the content is present; when the content is absent the adapter
panics on the `unwrap()` — it does not silently skip the frame, and it
does not yield an error element. -/
theorem adapt_first_choice (choice : ResponseChoice)
    (rest : List ResponseChoice) (c : String) :
    (choice.delta.content = some c →
      adapt_response (Except.ok (ResponseEvent.mk (choice :: rest))) =
        StreamItem.delta c) ∧
    (choice.delta.content = none →
      adapt_response (Except.ok (ResponseEvent.mk (choice :: rest))) =
        StreamItem.panicked) := by
  constructor <;> intro h <;> simp [adapt_response, h]

/-- Witness for C7: a frame with content "a" emits the delta "a", and a
frame with absent content panics. -/
theorem adapt_first_choice_witness :
    adapt_response (Except.ok (ResponseEvent.mk
      [ResponseChoice.mk (ResponseDelta.mk (some "a"))])) = StreamItem.delta "a" ∧
    adapt_response (Except.ok (ResponseEvent.mk
      [ResponseChoice.mk (ResponseDelta.mk none)])) = StreamItem.panicked :=
  ⟨(adapt_first_choice (ResponseChoice.mk (ResponseDelta.mk (some "a"))) [] "a").1 rfl,
   (adapt_first_choice (ResponseChoice.mk (ResponseDelta.mk none)) [] "a").2 rfl⟩

/-- Counterexample to C7 as stated: at a frame whose first choice has an
absent content value, the adapter panics; it does not yield a stream
error element of any kind. -/
theorem adapt_absent_content_cex :
    adapt_response (Except.ok (ResponseEvent.mk
      [ResponseChoice.mk (ResponseDelta.mk none)])) = StreamItem.panicked ∧
    ¬ ∃ e, adapt_response (Except.ok (ResponseEvent.mk
      [ResponseChoice.mk (ResponseDelta.mk none)])) = StreamItem.error e := by
  refine ⟨rfl, ?_⟩
  rintro ⟨e, he⟩
  simp [adapt_response] at he

/-- Claim C8 (amended): the credential-state invariant is preserved by a
successful `reset_credentials` (both fields cleared), by a key refresh
started from a state that holds the long-lived token (whether the
refresh succeeds or fails), and by an external token push that sets a
token. It is not preserved by a push that clears the token, as the
counterexample shows. -/
theorem credential_invariant_preservation (s : State) (avail : Bool)
    (signOut : Except String Unit) (s2 : State) (oauth t : String)
    (tokenEndpoint : String → Except String (String × Int)) :
    (reset_credentials avail signOut s = Except.ok s2 →
      credential_invariant s2 = true) ∧
    (s.oauth_token.isSome = true →
      credential_invariant (get_new_api_token oauth tokenEndpoint s).2 = true) ∧
    credential_invariant (chat_subscription_update (some t) s) = true := by
  refine ⟨?_, ?_, ?_⟩
  · intro h
    unfold reset_credentials at h
    cases avail with
    | false => simp at h
    | true =>
      cases signOut with
      | error e => simp at h
      | ok u =>
        simp only [Bool.not_true, Bool.false_eq_true, if_false, Except.ok.injEq] at h
        rw [← h]
        rfl
  · intro h
    unfold get_new_api_token
    cases hte : tokenEndpoint oauth with
    | error e => simp [credential_invariant, h]
    | ok kv => simp [credential_invariant, h]
  · simp [credential_invariant, chat_subscription_update]

/-- Witness for C8: the preserved cases evaluated at concrete inputs —
reset of the sample state, a refresh from the sample state, and a push
that sets a fresh token on the sample state. -/
theorem credential_invariant_preservation_witness :
    credential_invariant (State.mk none none) = true ∧
    credential_invariant
      (get_new_api_token "tok" sampleTokenEndpoint sampleState).2 = true ∧
    credential_invariant
      (chat_subscription_update (some "pushed") sampleState) = true :=
  ⟨(credential_invariant_preservation sampleState true (Except.ok ())
      (State.mk none none) "tok" "pushed" sampleTokenEndpoint).1 rfl,
   (credential_invariant_preservation sampleState true (Except.ok ())
      (State.mk none none) "tok" "pushed" sampleTokenEndpoint).2.1 rfl,
   (credential_invariant_preservation sampleState true (Except.ok ())
      (State.mk none none) "tok" "pushed" sampleTokenEndpoint).2.2⟩

/-- Counterexample to C8 as stated: an external token push that clears
the long-lived token leaves the cached ephemeral key in the state, so
the invariant, which held beforehand, is violated after the push. -/
theorem chat_subscription_invariant_cex :
    credential_invariant sampleState = true ∧
    chat_subscription_update none sampleState =
      State.mk none (some ("cached-key", 1000)) ∧
    credential_invariant (chat_subscription_update none sampleState) = false := by
  refine ⟨rfl, rfl, rfl⟩

/-- Claim C9 (amended): `authenticate` returns success immediately when
the state holds the long-lived token; when it does not, every upstream
status other than authorized produces a descriptive error, and the
authorized status produces success. In the embedding `authenticate` is a
pure function of the state and the reported status, so it performs no
handshake. -/
theorem authenticate_status (s : State) (copilot : Option Status) (st : Status) :
    (is_authenticated s = true → authenticate s copilot = AuthOutcome.ok) ∧
    (is_authenticated s = false → st ≠ Status.authorized →
      ∃ msg, authenticate s (some st) = AuthOutcome.err msg) ∧
    (is_authenticated s = false →
      authenticate s (some Status.authorized) = AuthOutcome.ok) := by
  refine ⟨?_, ?_, ?_⟩
  · intro h
    simp [authenticate, h]
  · intro h hne
    cases st with
    | disabled =>
      exact ⟨"Copilot must be enabled for Copilot Chat to work. Please enable Copilot and try again.",
        by simp [authenticate, h]⟩
    | error e =>
      exact ⟨"Received the following error while signing into Copilot: " ++ e,
        by simp [authenticate, h]⟩
    | starting =>
      exact ⟨"Copilot is still starting, please wait for Copilot to start then try again",
        by simp [authenticate, h]⟩
    | unauthorized =>
      exact ⟨"Unable to authorize with Copilot. Please make sure that you have an active Copilot and Copilot Chat subscription.",
        by simp [authenticate, h]⟩
    | authorized => exact absurd rfl hne
    | signedOut =>
      exact ⟨"You have signed out of Copilot. Please sign in to Copilot and try again.",
        by simp [authenticate, h]⟩
    | signingIn =>
      exact ⟨"Still signing into Copilot...", by simp [authenticate, h]⟩
  · intro h
    simp [authenticate, h]

/-- Witness for C9: the sample authenticated state yields ok regardless
of the status; an unauthenticated state yields an error at the
signed-out status and ok at the authorized status. -/
theorem authenticate_status_witness :
    authenticate sampleState (some Status.signedOut) = AuthOutcome.ok ∧
    (∃ msg, authenticate (State.mk none none) (some Status.signedOut) =
      AuthOutcome.err msg) ∧
    authenticate (State.mk none none) (some Status.authorized) = AuthOutcome.ok :=
  ⟨(authenticate_status sampleState (some Status.signedOut) Status.signedOut).1 rfl,
   (authenticate_status (State.mk none none) (some Status.signedOut)
      Status.signedOut).2.1 rfl (by decide),
   (authenticate_status (State.mk none none) (some Status.signedOut)
      Status.signedOut).2.2 rfl⟩

/-- Counterexample to C9 as stated: in an unauthenticated state with the
upstream status authorized, `authenticate` returns success, not a
descriptive error. -/
theorem authenticate_authorized_cex :
    authenticate (State.mk none none) (some Status.authorized) = AuthOutcome.ok ∧
    ¬ ∃ msg, authenticate (State.mk none none) (some Status.authorized) =
      AuthOutcome.err msg := by
  refine ⟨rfl, ?_⟩
  rintro ⟨msg, hm⟩
  simp [authenticate, is_authenticated] at hm

/-- Claim C10: validation inspects only the last message — for every
request whose last message has role user and non-whitespace content,
validation passes and `stream_completion` never returns a validation
error, regardless of the roles and contents of all earlier messages. -/
theorem validate_only_last_message (model : CopilotChatModel)
    (request : LanguageModelRequest) (state : State) (now : Int)
    (tokenEndpoint : String → Except String (String × Int))
    (completionEndpoint :
      String → CopilotChatRequest → Except String (List (Except String ResponseEvent)))
    (ve : ValidationError) (m : LanguageModelRequestMessage)
    (hlast : request.messages.getLast? = some m)
    (hrole : m.role = Role.user)
    (hcontent : trimmed_is_empty m.content = false) :
    validate request.messages = none ∧
    (stream_completion model request state now tokenEndpoint
      completionEndpoint).1 ≠ CompletionOutcome.validationError ve := by
  have hv : validate request.messages = none := by
    unfold validate
    rw [hlast]
    simp [hcontent, hrole]
  refine ⟨hv, ?_⟩
  unfold stream_completion
  rw [hv]
  split
  · simp_all
  · split
    · simp
    · split
      · simp
      · split
        · simp
        · simp

/-- Witness for C10: a request whose earlier messages are an empty
system message and a whitespace-only assistant message passes validation
on the strength of its final user message alone and never produces a
validation error. -/
theorem validate_only_last_message_witness :
    validate mixedRequest.messages = none ∧
    (stream_completion CopilotChatModel.gpt4 mixedRequest sampleState 0
      sampleTokenEndpoint sampleCompletionEndpoint).1 ≠
      CompletionOutcome.validationError ValidationError.EmptyPrompt :=
  validate_only_last_message CopilotChatModel.gpt4 mixedRequest sampleState 0
    sampleTokenEndpoint sampleCompletionEndpoint ValidationError.EmptyPrompt
    (LanguageModelRequestMessage.mk Role.user "hi") rfl rfl (by decide)

end CopilotChat
